import Mathlib

/-!
Verification of the krustlet join action of the Liquid-Reply/kind fork.

The action's logic (`pkg/cluster/internal/create/actions/krustletjoin/join.go`
and the variant embedded alongside `images/base/files/usr/local/bin/...`) is a
sequence of remote command executions and file writes against cluster nodes.
We embed it shallowly: the environment supplies the outcome of the n-th remote
operation issued by one worker's recipe, and the recipe interpreter records a
trace of the operations it issued (commands, file writes, sleeps) together
with the Go function's returned error.
-/

namespace Krustlet

/-- Outcome of one remote operation (command execution or file write), as
supplied by the environment: success with captured output lines, or an error
carrying a message. -/
inductive OpOutcome where
  | ok (lines : List String)
  | fail (msg : String)
deriving DecidableEq, Repr

/-- `true` iff the operation succeeded. -/
def OpOutcome.isOk : OpOutcome → Bool
  | .ok _ => true
  | .fail _ => false

/-- The environment of one worker's recipe: `op n` is the outcome of the n-th
remote operation the recipe issues (counting commands and file writes in
program order), and `kubeconfigVal`/`kubeconfigErr` are the two return values
of `kubeconfig.Get` used by the static-kubeconfig variant. -/
structure Env where
  op : Nat → OpOutcome
  kubeconfigVal : String
  kubeconfigErr : Option String

/-- An observable step of a recipe: a remote command run on a node, a file
written to a node, or a sleep of a number of seconds. -/
inductive Event where
  | run (node : String) (argv : List String)
  | write (node : String) (path : String) (content : String)
  | sleep (seconds : Nat)
deriving DecidableEq, Repr

/-- Interpreter state: the index of the next remote operation and the trace of
events issued so far. -/
structure St where
  k : Nat
  trace : List Event

/-- `errors.Wrap(err, msg)` produces an error reading `msg ++ ": " ++ err`. -/
def wrap (msg cause : String) : String :=
  msg ++ (": ") ++ cause

/-- `exec.CombinedOutputLines(node.Command(argv...))` (and `.Run()`): issue the
command, record it in the trace, and return the environment's outcome for this
operation index. -/
def execCmd (env : Env) (s : St) (node : String) (argv : List String) :
    Except String (List String) × St :=
  let s1 : St := { k := s.k + 1, trace := s.trace ++ [Event.run node argv] }
  match env.op s.k with
  | .ok ls => (Except.ok ls, s1)
  | .fail m => (Except.error m, s1)

/-- `nodeutils.WriteFile(node, path, content)`: record the write and return
the environment's outcome for this operation index. -/
def writeFile (env : Env) (s : St) (node path content : String) :
    Except String Unit × St :=
  let s1 : St := { k := s.k + 1, trace := s.trace ++ [Event.write node path content] }
  match env.op s.k with
  | .ok _ => (Except.ok (), s1)
  | .fail m => (Except.error m, s1)

/-- argv of the CSR poll command `kubectl --kubeconfig /etc/kubernetes/admin.conf
get csr <csr>`. -/
def pollArgv (csr : String) : List String :=
  ["kubectl", "--kubeconfig", "/etc/kubernetes/admin.conf", "get", "csr", csr]

/-- argv of the approval command `kubectl --kubeconfig /etc/kubernetes/admin.conf
certificate approve <csr>`. -/
def approveArgv (csr : String) : List String :=
  ["kubectl", "--kubeconfig", "/etc/kubernetes/admin.conf", "certificate", "approve", csr]

/-- Result of one worker's recipe: the trace of operations issued and the
error value the Go function returned (`Except.ok ()` for `nil`). -/
structure Outcome where
  trace : List Event
  result : Except String Unit
deriving Repr

/-- The final step shared verbatim by both recipes (join.go lines 160-167 and
the companion source lines 178-185): run `kubectl ... certificate approve
<csr>` on the control-plane node; a failure is wrapped — by a copy-paste of
the preceding step's message — as "failed to run `systemctl start
krustlet`". -/
def approveStep (env : Env) (cp csr : String) (s : St) : Outcome :=
  match execCmd env s cp (approveArgv csr) with
  | (Except.error e, s1) =>
      ⟨s1.trace, Except.error (wrap ("failed to run `systemctl start krustlet`") e)⟩
  | (Except.ok _, s1) => ⟨s1.trace, Except.ok ()⟩

/-- The poll loop of `runKrustletJoin` (join.go lines 148-158):
`for i := 0; i <= 30; i++ { if get csr succeeds, break; log; sleep 1s }`.
The fuel argument is the number of remaining iterations; the loop is entered
with fuel 31. The loop's own error is discarded afterwards by the source, so
only the state comes back. -/
def pollKrustlet (env : Env) (cp csr : String) : Nat → St → St
  | 0, s => s
  | fuel + 1, s =>
    match execCmd env s cp (pollArgv csr) with
    | (Except.ok _, s1) => s1
    | (Except.error _, s1) =>
        pollKrustlet env cp csr fuel
          { s1 with trace := s1.trace ++ [Event.sleep 1] }

/-- The poll loop of `runKubeadmJoin` (mount-product-files companion source,
lines 166-176): `for i := 0; i <= 10; i++ { sleep 1s; if get csr succeeds,
break; log }`. Entered with fuel 11; note the sleep precedes each attempt. -/
def pollKubeadm (env : Env) (cp csr : String) : Nat → St → St
  | 0, s => s
  | fuel + 1, s =>
    let s0 : St := { s with trace := s.trace ++ [Event.sleep 1] }
    match execCmd env s0 cp (pollArgv csr) with
    | (Except.ok _, s1) => s1
    | (Except.error _, s1) => pollKubeadm env cp csr fuel s1

/-- `runKrustletJoin(logger, node, provider, name, cpNode)` from join.go:
download the bootstrap script on the control-plane node, execute it there,
read back `/root/.krustlet/config/bootstrap.conf`, write it to the worker,
enable and start the krustlet service on the worker, poll for the CSR
`<node>-tls` on the control-plane node, then approve it there. -/
def runKrustletJoin (env : Env) (node cp : String) : Outcome :=
  match execCmd env ⟨0, []⟩ cp
      ["curl", "-sSL", "https://raw.githubusercontent.com/krustlet/krustlet/main/scripts/bootstrap.sh"] with
  | (Except.error e, s) =>
      ⟨s.trace, Except.error (wrap ("failed to download krustlet bootstrap token script") e)⟩
  | (Except.ok script, s) =>
  match execCmd env s cp ["bash", "-c", String.intercalate ("\n") script] with
  | (Except.error e, s) =>
      ⟨s.trace, Except.error (wrap ("failed to execute krustlet bootstrap token script") e)⟩
  | (Except.ok _, s) =>
  match execCmd env s cp ["cat", "/root/.krustlet/config/bootstrap.conf"] with
  | (Except.error e, s) =>
      ⟨s.trace, Except.error (wrap ("failed to fetch bootstrap.conf") e)⟩
  | (Except.ok bootconf, s) =>
  match writeFile env s node ("/etc/kubernetes/bootstrap-kubelet.conf")
      (String.intercalate ("\n") bootconf) with
  | (Except.error e, s) =>
      ⟨s.trace, Except.error (wrap ("failed to write kubeconfig") e)⟩
  | (Except.ok _, s) =>
  match execCmd env s node ["systemctl", "enable", "krustlet"] with
  | (Except.error e, s) =>
      ⟨s.trace, Except.error (wrap ("failed to enable krustlet sevice") e)⟩
  | (Except.ok _, s) =>
  match execCmd env s node ["systemctl", "start", "krustlet"] with
  | (Except.error e, s) =>
      ⟨s.trace, Except.error (wrap ("failed to run `systemctl start krustlet`") e)⟩
  | (Except.ok _, s) =>
  approveStep env cp (node ++ ("-tls")) (pollKrustlet env cp (node ++ ("-tls")) 31 s)

/-- `runKubeadmJoin(logger, node, provider, name, cpNode)` from the
mount-product-files companion source: fetch the admin kubeconfig (the error
return of `kubeconfig.Get` is discarded by the source: `config, _ := ...`),
write it to `/etc/kubernetes/kubeconfig` on the worker, enable and start the
krustlet service, poll for the CSR on the control-plane node, approve it. -/
def runKubeadmJoin (env : Env) (node cp : String) : Outcome :=
  match writeFile env ⟨0, []⟩ node ("/etc/kubernetes/kubeconfig") env.kubeconfigVal with
  | (Except.error e, s) =>
      ⟨s.trace, Except.error (wrap ("failed to write kubeconfig") e)⟩
  | (Except.ok _, s) =>
  match execCmd env s node ["systemctl", "enable", "krustlet"] with
  | (Except.error e, s) =>
      ⟨s.trace, Except.error (wrap ("failed to enable krustlet sevice") e)⟩
  | (Except.ok _, s) =>
  match execCmd env s node ["systemctl", "start", "krustlet"] with
  | (Except.error e, s) =>
      ⟨s.trace, Except.error (wrap ("failed to run `systemctl start krustlet`") e)⟩
  | (Except.ok _, s) =>
  approveStep env cp (node ++ ("-tls")) (pollKubeadm env cp (node ++ ("-tls")) 11 s)

/-- A cluster node: a name and a role label. -/
structure Node where
  name : String
  role : String
deriving DecidableEq, Repr

/-- Modelled from the spec: `constants.KrustletNodeRoleValue` is not under
src/; the spec partitions nodes "by role label into {control-plane,
worker/krustlet}", so the worker role label is the literal krustlet role. -/
def krustletNodeRoleValue : String := "krustlet"

/-- Modelled from the spec: `constants.ControlPlaneNodeRoleValue` is not under
src/; the control-plane role label. -/
def controlPlaneNodeRoleValue : String := "control-plane"

/-- Modelled from the spec: `nodeutils.SelectNodesByRole` is not under src/;
per the spec, "SelectNodesByRole(allNodes, role) -> []nodeRef" and "Role
selection yields an ordered sequence" — the order-preserving subsequence of
nodes carrying the role. -/
def selectNodesByRole (ns : List Node) (role : String) : List Node :=
  ns.filter (fun n => n.role == role)

/-- Modelled from the spec: `errors.UntilErrorConcurrent` is not under src/;
per the spec, "the group call returns the first error encountered (or nil if
all succeed)". -/
def untilErrorConcurrent (rs : List (Except String Unit)) : Except String Unit :=
  match rs.filterMap (fun r => match r with | Except.error e => some e | Except.ok _ => none) with
  | [] => Except.ok ()
  | e :: _ => Except.error e

/-- The per-worker recipes launched by `joinWorkers`: one closure per worker
node (join.go lines 80-86), each capturing its own node and the shared
control-plane node; the environment family `envf i` supplies worker i's
operation outcomes. -/
def recipeOutcomes (recipe : Env → String → String → Outcome) :
    (Nat → Env) → List Node → Node → List Outcome
  | _, [], _ => []
  | envf, w :: ws, cp =>
      recipe (envf 0) w.name cp.name ::
        recipeOutcomes recipe (fun i => envf (i + 1)) ws cp

/-- Result of `Execute`: normal return of nil, an error value, or a Go runtime
panic (which is not a returned error). -/
inductive ExecResult where
  | ok
  | err (msg : String)
  | panic (msg : String)
deriving DecidableEq, Repr

/-- `(*Action).Execute` (join.go lines 46-69): select the krustlet-role
workers and control-plane nodes, and when workers exist, index `cpNodes[0]`
(a panic when the selection is empty) and run `joinWorkers`, which launches
the per-worker recipes and returns the first error, or nil. -/
def executeAction (recipe : Env → String → String → Outcome)
    (allNodes : List Node) (envf : Nat → Env) : ExecResult :=
  let workers := selectNodesByRole allNodes krustletNodeRoleValue
  let cpNodes := selectNodesByRole allNodes controlPlaneNodeRoleValue
  if 0 < workers.length then
    match cpNodes with
    | [] => ExecResult.panic ("runtime error: index out of range [0] with length 0")
    | cp :: _ =>
      match untilErrorConcurrent ((recipeOutcomes recipe envf workers cp).map Outcome.result) with
      | Except.error e => ExecResult.err e
      | Except.ok _ => ExecResult.ok
  else ExecResult.ok

/-- `true` iff the event is the CSR poll command for `csr` issued on node
`cp`. -/
def isPollCmd (cp csr : String) (e : Event) : Bool :=
  e == Event.run cp (pollArgv csr)

/-- `true` iff the event is the CSR approval command for `csr` issued on node
`cp`. -/
def isApproveCmd (cp csr : String) (e : Event) : Bool :=
  e == Event.run cp (approveArgv csr)

/-- `true` iff the event is a `kubectl ... certificate approve` command,
regardless of target node or CSR name. -/
def isAnyApprove (e : Event) : Bool :=
  match e with
  | Event.run _ argv =>
      argv.take 5 == ["kubectl", "--kubeconfig", "/etc/kubernetes/admin.conf", "certificate", "approve"]
  | _ => false

/-- The node an event was issued against (sleeps happen locally). -/
def eventNode : Event → String
  | Event.run n _ => n
  | Event.write n _ _ => n
  | Event.sleep _ => ""

/-- `true` unless the event is a sleep of a duration other than 1 second. -/
def sleepOk (e : Event) : Bool :=
  match e with
  | Event.sleep n => n == 1
  | _ => true

/-- Every sleep in the trace lasts exactly 1 second. -/
def sleepsOneSecond (t : List Event) : Bool :=
  t.all sleepOk

/-- Number of CSR poll attempts for `csr` on node `cp` recorded in a trace. -/
def pollCount (cp csr : String) (t : List Event) : Nat :=
  t.countP (isPollCmd cp csr)

/-- Number of CSR approval commands for `csr` on node `cp` recorded in a
trace. -/
def approveCount (cp csr : String) (t : List Event) : Nat :=
  t.countP (isApproveCmd cp csr)

/-- Environment in which every remote operation succeeds. -/
def envAllOk : Env := ⟨fun _ => OpOutcome.ok [], "cfg", none⟩

/-- Environment for the bootstrap-token recipe in which the six operations
before the poll succeed and every poll attempt (operation indices 6..36)
fails, so the poll exhausts its budget; the approval afterwards succeeds. -/
def envExhaustKrustlet : Env :=
  ⟨fun n => if 6 ≤ n ∧ n ≤ 36 then OpOutcome.fail ("no csr") else OpOutcome.ok [],
   "cfg", none⟩

/-- Environment for the static-kubeconfig recipe in which the three
operations before the poll succeed and every poll attempt (operation indices
3..13) fails; the approval afterwards succeeds. -/
def envExhaustKubeadm : Env :=
  ⟨fun n => if 3 ≤ n ∧ n ≤ 13 then OpOutcome.fail ("no csr") else OpOutcome.ok [],
   "cfg", none⟩

/-- Environment for the bootstrap-token recipe in which the first poll
attempt (operation index 6) fails and the second succeeds. -/
def envSecondTryKrustlet : Env :=
  ⟨fun n => if n = 6 then OpOutcome.fail ("no csr") else OpOutcome.ok [], "cfg", none⟩

/-- Environment for the static-kubeconfig recipe in which the first poll
attempt (operation index 3) fails and the second succeeds. -/
def envSecondTryKubeadm : Env :=
  ⟨fun n => if n = 3 then OpOutcome.fail ("no csr") else OpOutcome.ok [], "cfg", none⟩

/-- Environment for the bootstrap-token recipe in which `systemctl start
krustlet` (operation index 5) fails and everything else succeeds. -/
def envStartFailKrustlet : Env :=
  ⟨fun n => if n = 5 then OpOutcome.fail ("exit status 1") else OpOutcome.ok [], "cfg", none⟩

/-- Environment for the static-kubeconfig recipe in which `systemctl start
krustlet` (operation index 2) fails and everything else succeeds. -/
def envStartFailKubeadm : Env :=
  ⟨fun n => if n = 2 then OpOutcome.fail ("exit status 1") else OpOutcome.ok [], "cfg", none⟩

/-- Environment for the bootstrap-token recipe in which the approval
(operation index 7, after a first-attempt poll success at index 6) fails. -/
def envApproveFailKrustlet : Env :=
  ⟨fun n => if n = 7 then OpOutcome.fail ("approve denied") else OpOutcome.ok [], "cfg", none⟩

/-- Environment for the static-kubeconfig recipe in which the approval
(operation index 4, after a first-attempt poll success at index 3) fails. -/
def envApproveFailKubeadm : Env :=
  ⟨fun n => if n = 4 then OpOutcome.fail ("approve denied") else OpOutcome.ok [], "cfg", none⟩

/-- Environment in which `kubeconfig.Get` reports an error (returning the
empty string) but every remote operation succeeds. -/
def envGetFail : Env :=
  ⟨fun _ => OpOutcome.ok [], "", some ("connection refused")⟩

/-- Environment in which the very first remote operation (the kubeconfig
write of the static-kubeconfig recipe) fails and everything else succeeds. -/
def envWriteFail : Env :=
  ⟨fun n => if n = 0 then OpOutcome.fail ("device full") else OpOutcome.ok [], "cfg", none⟩

/-- Environment for the bootstrap-token recipe in which reading
`/root/.krustlet/config/bootstrap.conf` (operation index 2) fails. -/
def envCatFail : Env :=
  ⟨fun n => if n = 2 then OpOutcome.fail ("no such file") else OpOutcome.ok [], "cfg", none⟩

/-- The wrap messages of the four credential steps of the bootstrap-token
recipe, in program order: script download, script execution, reading back
bootstrap.conf, writing it to the worker. -/
def credentialStepMsg : Nat → String
  | 0 => "failed to download krustlet bootstrap token script"
  | 1 => "failed to execute krustlet bootstrap token script"
  | 2 => "failed to fetch bootstrap.conf"
  | _ => "failed to write kubeconfig"

/-! ### Helper lemmas about the poll loops -/

lemma countP_single (p : Event → Bool) (e : Event) :
    List.countP p [e] = if p e then 1 else 0 := by
  simp [List.countP_cons]

lemma pollKrustlet_countP_le (env : Env) (cp csr : String) (p : Event → Bool)
    (hs : p (Event.sleep 1) = false) :
    ∀ fuel s, ((pollKrustlet env cp csr fuel s).trace).countP p ≤ s.trace.countP p + fuel := by
  intro fuel
  induction fuel with
  | zero => intro s; simp [pollKrustlet]
  | succ n ih =>
    intro s
    rcases h : env.op s.k with ls | m
    · simp only [pollKrustlet, execCmd, h]
      simp [List.countP_append, countP_single]
      split <;> omega
    · simp only [pollKrustlet, execCmd, h]
      refine le_trans (ih _) ?_
      simp [List.countP_append, List.countP_cons, hs]
      split <;> omega

lemma pollKrustlet_countP_eq (env : Env) (cp csr : String) (p : Event → Bool)
    (hp : p (Event.run cp (pollArgv csr)) = false) (hs : p (Event.sleep 1) = false) :
    ∀ fuel s, ((pollKrustlet env cp csr fuel s).trace).countP p = s.trace.countP p := by
  intro fuel
  induction fuel with
  | zero => intro s; simp [pollKrustlet]
  | succ n ih =>
    intro s
    rcases h : env.op s.k with ls | m
    · simp [pollKrustlet, execCmd, h, List.countP_append, countP_single, hp]
    · simp only [pollKrustlet, execCmd, h]
      rw [ih]
      simp [List.countP_append, countP_single, hp, hs]

lemma pollKrustlet_all (env : Env) (cp csr : String) (q : Event → Bool)
    (hp : q (Event.run cp (pollArgv csr)) = true) (hs : q (Event.sleep 1) = true) :
    ∀ fuel s, s.trace.all q = true → ((pollKrustlet env cp csr fuel s).trace).all q = true := by
  intro fuel
  induction fuel with
  | zero => intro s hq; simpa [pollKrustlet] using hq
  | succ n ih =>
    intro s hq
    rcases h : env.op s.k with ls | m
    · simp [pollKrustlet, execCmd, h, List.all_append, hp, hq]
    · simp only [pollKrustlet, execCmd, h]
      exact ih _ (by simp [List.all_append, hp, hs, hq])

lemma pollKrustlet_success (env : Env) (cp csr : String) :
    ∀ fuel k b, 1 ≤ k → k ≤ fuel →
      (∀ j, j + 1 < k → (env.op (b + j)).isOk = false) →
      (env.op (b + (k - 1))).isOk = true →
      ∀ s : St, s.k = b →
      ((pollKrustlet env cp csr fuel s).trace).countP (isPollCmd cp csr)
        = s.trace.countP (isPollCmd cp csr) + k := by
  intro fuel
  induction fuel with
  | zero => intro k b h1 h2 _ _ _ _; omega
  | succ n ih =>
    intro k b h1 h2 hfail hsucc s hsk
    by_cases hk : k = 1
    · subst hk
      rcases ho : env.op s.k with ls | m
      · simp [pollKrustlet, execCmd, ho, List.countP_append, countP_single, isPollCmd]
      · rw [hsk] at ho
        rw [Nat.sub_self, Nat.add_zero, ho] at hsucc
        simp [OpOutcome.isOk] at hsucc
    · have hk2 : 2 ≤ k := by omega
      have hf0 : (env.op (b + 0)).isOk = false := hfail 0 (by omega)
      rcases ho : env.op s.k with ls | m
      · rw [hsk] at ho
        rw [Nat.add_zero, ho] at hf0
        simp [OpOutcome.isOk] at hf0
      · have hfl2 : ∀ j, j + 1 < k - 1 → (env.op (b + 1 + j)).isOk = false := by
          intro j hj
          have he : b + 1 + j = b + (j + 1) := by omega
          rw [he]
          exact hfail (j + 1) (by omega)
        have hsc2 : (env.op (b + 1 + (k - 1 - 1))).isOk = true := by
          have he : b + 1 + (k - 1 - 1) = b + (k - 1) := by omega
          rw [he]
          exact hsucc
        simp only [pollKrustlet, execCmd, ho]
        rw [ih (k - 1) (b + 1) (by omega) (by omega) hfl2 hsc2]
        · simp [List.countP_append, countP_single, isPollCmd]
          omega
        · simp [hsk]

lemma approveStep_trace (env : Env) (cp csr : String) (s : St) :
    (approveStep env cp csr s).trace = s.trace ++ [Event.run cp (approveArgv csr)] := by
  rcases h : env.op s.k with ls | m <;> simp [approveStep, execCmd, h]

lemma approveStep_result_fail (env : Env) (cp csr : String) (s : St) (m : String)
    (h : env.op s.k = OpOutcome.fail m) :
    (approveStep env cp csr s).result
      = Except.error (wrap ("failed to run `systemctl start krustlet`") m) := by
  simp [approveStep, execCmd, h]

lemma approveStep_result_ok (env : Env) (cp csr : String) (s : St) (ls : List String)
    (h : env.op s.k = OpOutcome.ok ls) :
    (approveStep env cp csr s).result = Except.ok () := by
  simp [approveStep, execCmd, h]

lemma pollKubeadm_countP_le (env : Env) (cp csr : String) (p : Event → Bool)
    (hs : p (Event.sleep 1) = false) :
    ∀ fuel s, ((pollKubeadm env cp csr fuel s).trace).countP p ≤ s.trace.countP p + fuel := by
  intro fuel
  induction fuel with
  | zero => intro s; simp [pollKubeadm]
  | succ n ih =>
    intro s
    rcases h : env.op s.k with ls | m
    · simp only [pollKubeadm, execCmd, h]
      simp [List.countP_append, List.countP_cons, hs]
      split <;> omega
    · simp only [pollKubeadm, execCmd, h]
      refine le_trans (ih _) ?_
      simp [List.countP_append, List.countP_cons, hs]
      split <;> omega

lemma pollKubeadm_countP_eq (env : Env) (cp csr : String) (p : Event → Bool)
    (hp : p (Event.run cp (pollArgv csr)) = false) (hs : p (Event.sleep 1) = false) :
    ∀ fuel s, ((pollKubeadm env cp csr fuel s).trace).countP p = s.trace.countP p := by
  intro fuel
  induction fuel with
  | zero => intro s; simp [pollKubeadm]
  | succ n ih =>
    intro s
    rcases h : env.op s.k with ls | m
    · simp [pollKubeadm, execCmd, h, List.countP_append, List.countP_cons, hp, hs]
    · simp only [pollKubeadm, execCmd, h]
      rw [ih]
      simp [List.countP_append, List.countP_cons, hp, hs]

lemma pollKubeadm_all (env : Env) (cp csr : String) (q : Event → Bool)
    (hp : q (Event.run cp (pollArgv csr)) = true) (hs : q (Event.sleep 1) = true) :
    ∀ fuel s, s.trace.all q = true → ((pollKubeadm env cp csr fuel s).trace).all q = true := by
  intro fuel
  induction fuel with
  | zero => intro s hq; simpa [pollKubeadm] using hq
  | succ n ih =>
    intro s hq
    rcases h : env.op s.k with ls | m
    · simp [pollKubeadm, execCmd, h, List.all_append, hp, hs, hq]
    · simp only [pollKubeadm, execCmd, h]
      exact ih _ (by simp [List.all_append, hp, hs, hq])

lemma pollKubeadm_success (env : Env) (cp csr : String) :
    ∀ fuel k b, 1 ≤ k → k ≤ fuel →
      (∀ j, j + 1 < k → (env.op (b + j)).isOk = false) →
      (env.op (b + (k - 1))).isOk = true →
      ∀ s : St, s.k = b →
      ((pollKubeadm env cp csr fuel s).trace).countP (isPollCmd cp csr)
        = s.trace.countP (isPollCmd cp csr) + k := by
  intro fuel
  induction fuel with
  | zero => intro k b h1 h2 _ _ _ _; omega
  | succ n ih =>
    intro k b h1 h2 hfail hsucc s hsk
    by_cases hk : k = 1
    · subst hk
      rcases ho : env.op s.k with ls | m
      · simp [pollKubeadm, execCmd, ho, List.countP_append, List.countP_cons, isPollCmd]
      · rw [hsk] at ho
        rw [Nat.sub_self, Nat.add_zero, ho] at hsucc
        simp [OpOutcome.isOk] at hsucc
    · have hk2 : 2 ≤ k := by omega
      have hf0 : (env.op (b + 0)).isOk = false := hfail 0 (by omega)
      rcases ho : env.op s.k with ls | m
      · rw [hsk] at ho
        rw [Nat.add_zero, ho] at hf0
        simp [OpOutcome.isOk] at hf0
      · have hfl2 : ∀ j, j + 1 < k - 1 → (env.op (b + 1 + j)).isOk = false := by
          intro j hj
          have he : b + 1 + j = b + (j + 1) := by omega
          rw [he]
          exact hfail (j + 1) (by omega)
        have hsc2 : (env.op (b + 1 + (k - 1 - 1))).isOk = true := by
          have he : b + 1 + (k - 1 - 1) = b + (k - 1) := by omega
          rw [he]
          exact hsucc
        simp only [pollKubeadm, execCmd, ho]
        rw [ih (k - 1) (b + 1) (by omega) (by omega) hfl2 hsc2]
        · simp [List.countP_append, List.countP_cons, isPollCmd]
          omega
        · simp [hsk]

lemma exists_ok_of_isOk {o : OpOutcome} (h : o.isOk = true) : ∃ ls, o = OpOutcome.ok ls := by
  cases o with
  | ok ls => exact ⟨ls, rfl⟩
  | fail m => simp [OpOutcome.isOk] at h

lemma krustletJoin_poll_ceiling (env : Env) (node cp : String) :
    pollCount cp (node ++ ("-tls")) (runKrustletJoin env node cp).trace ≤ 31 := by
  unfold runKrustletJoin pollCount
  rcases h0 : env.op 0 with ls0 | m0
  · rcases h1 : env.op 1 with ls1 | m1
    · rcases h2 : env.op 2 with ls2 | m2
      · rcases h3 : env.op 3 with ls3 | m3
        · rcases h4 : env.op 4 with ls4 | m4
          · rcases h5 : env.op 5 with ls5 | m5
            · simp only [execCmd, writeFile, h0, h1, h2, h3, h4, h5]
              rw [approveStep_trace, List.countP_append]
              have hone : List.countP (isPollCmd cp (node ++ ("-tls")))
                  [Event.run cp (approveArgv (node ++ ("-tls")))] = 0 := by
                simp [isPollCmd, pollArgv, approveArgv]
              rw [hone]
              refine le_trans (Nat.add_le_add_right
                (pollKrustlet_countP_le env cp _ _ (by simp [isPollCmd]) 31 _) 0) ?_
              simp [isPollCmd, pollArgv, List.countP_cons]
            · simp [execCmd, writeFile, h0, h1, h2, h3, h4, h5, isPollCmd, pollArgv,
                List.countP_cons]
          · simp [execCmd, writeFile, h0, h1, h2, h3, h4, isPollCmd, pollArgv, List.countP_cons]
        · simp [execCmd, writeFile, h0, h1, h2, h3, isPollCmd, pollArgv, List.countP_cons]
      · simp [execCmd, writeFile, h0, h1, h2, isPollCmd, pollArgv, List.countP_cons]
    · simp [execCmd, writeFile, h0, h1, isPollCmd, pollArgv, List.countP_cons]
  · simp [execCmd, h0, isPollCmd, pollArgv, List.countP_cons]

lemma kubeadmJoin_poll_ceiling (env : Env) (node cp : String) :
    pollCount cp (node ++ ("-tls")) (runKubeadmJoin env node cp).trace ≤ 11 := by
  unfold runKubeadmJoin pollCount
  rcases h0 : env.op 0 with ls0 | m0
  · rcases h1 : env.op 1 with ls1 | m1
    · rcases h2 : env.op 2 with ls2 | m2
      · simp only [execCmd, writeFile, h0, h1, h2]
        rw [approveStep_trace, List.countP_append]
        have hone : List.countP (isPollCmd cp (node ++ ("-tls")))
            [Event.run cp (approveArgv (node ++ ("-tls")))] = 0 := by
          simp [isPollCmd, pollArgv, approveArgv]
        rw [hone]
        refine le_trans (Nat.add_le_add_right
          (pollKubeadm_countP_le env cp _ _ (by simp [isPollCmd]) 11 _) 0) ?_
        simp [isPollCmd, pollArgv, List.countP_cons]
      · simp [execCmd, writeFile, h0, h1, h2, isPollCmd, pollArgv, List.countP_cons]
    · simp [execCmd, writeFile, h0, h1, isPollCmd, pollArgv, List.countP_cons]
  · simp [execCmd, writeFile, h0, isPollCmd, pollArgv, List.countP_cons]

lemma krustletJoin_sleeps (env : Env) (node cp : String) :
    sleepsOneSecond (runKrustletJoin env node cp).trace = true := by
  unfold runKrustletJoin sleepsOneSecond
  rcases h0 : env.op 0 with ls0 | m0
  · rcases h1 : env.op 1 with ls1 | m1
    · rcases h2 : env.op 2 with ls2 | m2
      · rcases h3 : env.op 3 with ls3 | m3
        · rcases h4 : env.op 4 with ls4 | m4
          · rcases h5 : env.op 5 with ls5 | m5
            · simp only [execCmd, writeFile, h0, h1, h2, h3, h4, h5]
              rw [approveStep_trace, List.all_append, Bool.and_eq_true]
              constructor
              · exact pollKrustlet_all env cp _ sleepOk (by simp [sleepOk])
                  (by simp [sleepOk]) 31 _ (by simp [sleepOk])
              · simp [sleepOk]
            · simp [execCmd, writeFile, h0, h1, h2, h3, h4, h5, sleepOk]
          · simp [execCmd, writeFile, h0, h1, h2, h3, h4, sleepOk]
        · simp [execCmd, writeFile, h0, h1, h2, h3, sleepOk]
      · simp [execCmd, writeFile, h0, h1, h2, sleepOk]
    · simp [execCmd, writeFile, h0, h1, sleepOk]
  · simp [execCmd, h0, sleepOk]

lemma kubeadmJoin_sleeps (env : Env) (node cp : String) :
    sleepsOneSecond (runKubeadmJoin env node cp).trace = true := by
  unfold runKubeadmJoin sleepsOneSecond
  rcases h0 : env.op 0 with ls0 | m0
  · rcases h1 : env.op 1 with ls1 | m1
    · rcases h2 : env.op 2 with ls2 | m2
      · simp only [execCmd, writeFile, h0, h1, h2]
        rw [approveStep_trace, List.all_append, Bool.and_eq_true]
        constructor
        · exact pollKubeadm_all env cp _ sleepOk (by simp [sleepOk])
            (by simp [sleepOk]) 11 _ (by simp [sleepOk])
        · simp [sleepOk]
      · simp [execCmd, writeFile, h0, h1, h2, sleepOk]
    · simp [execCmd, writeFile, h0, h1, sleepOk]
  · simp [execCmd, writeFile, h0, sleepOk]

lemma krustletJoin_approve_once (env : Env) (node cp : String)
    (h : ∀ j, j < 6 → (env.op j).isOk = true) :
    approveCount cp (node ++ ("-tls")) (runKrustletJoin env node cp).trace = 1 := by
  obtain ⟨ls0, h0⟩ := exists_ok_of_isOk (h 0 (by omega))
  obtain ⟨ls1, h1⟩ := exists_ok_of_isOk (h 1 (by omega))
  obtain ⟨ls2, h2⟩ := exists_ok_of_isOk (h 2 (by omega))
  obtain ⟨ls3, h3⟩ := exists_ok_of_isOk (h 3 (by omega))
  obtain ⟨ls4, h4⟩ := exists_ok_of_isOk (h 4 (by omega))
  obtain ⟨ls5, h5⟩ := exists_ok_of_isOk (h 5 (by omega))
  unfold runKrustletJoin approveCount
  simp only [execCmd, writeFile, h0, h1, h2, h3, h4, h5]
  rw [approveStep_trace, List.countP_append]
  rw [pollKrustlet_countP_eq env cp _ _ (by simp [isApproveCmd, pollArgv, approveArgv])
    (by simp [isApproveCmd])]
  simp [isApproveCmd, approveArgv, pollArgv, List.countP_cons]

lemma kubeadmJoin_approve_once (env : Env) (node cp : String)
    (h : ∀ j, j < 3 → (env.op j).isOk = true) :
    approveCount cp (node ++ ("-tls")) (runKubeadmJoin env node cp).trace = 1 := by
  obtain ⟨ls0, h0⟩ := exists_ok_of_isOk (h 0 (by omega))
  obtain ⟨ls1, h1⟩ := exists_ok_of_isOk (h 1 (by omega))
  obtain ⟨ls2, h2⟩ := exists_ok_of_isOk (h 2 (by omega))
  unfold runKubeadmJoin approveCount
  simp only [execCmd, writeFile, h0, h1, h2]
  rw [approveStep_trace, List.countP_append]
  rw [pollKubeadm_countP_eq env cp _ _ (by simp [isApproveCmd, pollArgv, approveArgv])
    (by simp [isApproveCmd])]
  simp [isApproveCmd, approveArgv, pollArgv, List.countP_cons]

lemma approveStep_result_allOk (env : Env) (cp csr : String) (s : St)
    (hall : ∀ n, (env.op n).isOk = true) :
    (approveStep env cp csr s).result = Except.ok () := by
  obtain ⟨ls, h⟩ := exists_ok_of_isOk (hall s.k)
  exact approveStep_result_ok env cp csr s ls h

lemma krustletJoin_result_ok (env : Env) (node cp : String)
    (hall : ∀ n, (env.op n).isOk = true) :
    (runKrustletJoin env node cp).result = Except.ok () := by
  obtain ⟨ls0, h0⟩ := exists_ok_of_isOk (hall 0)
  obtain ⟨ls1, h1⟩ := exists_ok_of_isOk (hall 1)
  obtain ⟨ls2, h2⟩ := exists_ok_of_isOk (hall 2)
  obtain ⟨ls3, h3⟩ := exists_ok_of_isOk (hall 3)
  obtain ⟨ls4, h4⟩ := exists_ok_of_isOk (hall 4)
  obtain ⟨ls5, h5⟩ := exists_ok_of_isOk (hall 5)
  unfold runKrustletJoin
  simp only [execCmd, writeFile, h0, h1, h2, h3, h4, h5]
  exact approveStep_result_allOk env cp _ _ hall

lemma untilErrorConcurrent_ok (rs : List (Except String Unit))
    (h : ∀ r ∈ rs, r = Except.ok ()) : untilErrorConcurrent rs = Except.ok () := by
  unfold untilErrorConcurrent
  have hnil : rs.filterMap
      (fun r => match r with | Except.error e => some e | Except.ok _ => none) = [] := by
    rw [List.filterMap_eq_nil_iff]
    intro r hr
    rw [h r hr]
  rw [hnil]

lemma recipeOutcomes_length (recipe : Env → String → String → Outcome) :
    ∀ (envf : Nat → Env) (ws : List Node) (cp : Node),
      (recipeOutcomes recipe envf ws cp).length = ws.length := by
  intro envf ws
  induction ws generalizing envf with
  | nil => intro cp; rfl
  | cons w ws ih => intro cp; simp [recipeOutcomes, ih]

lemma recipeOutcomes_result_ok :
    ∀ (envf : Nat → Env) (ws : List Node) (cp : Node),
      (∀ i n, ((envf i).op n).isOk = true) →
      ∀ o ∈ recipeOutcomes runKrustletJoin envf ws cp, o.result = Except.ok () := by
  intro envf ws
  induction ws generalizing envf with
  | nil => intro cp _ o ho; simp [recipeOutcomes] at ho
  | cons w ws ih =>
    intro cp hall o ho
    rw [recipeOutcomes] at ho
    rcases List.mem_cons.mp ho with h | h
    · rw [h]
      exact krustletJoin_result_ok _ _ _ (hall 0)
    · exact ih (fun i => envf (i + 1)) cp (fun i n => hall (i + 1) n) o h

lemma krustletJoin_approver (env : Env) (node cp : String) :
    ((runKrustletJoin env node cp).trace.all
      (fun e => !(isAnyApprove e) || (eventNode e == cp))) = true := by
  unfold runKrustletJoin
  rcases h0 : env.op 0 with ls0 | m0
  · rcases h1 : env.op 1 with ls1 | m1
    · rcases h2 : env.op 2 with ls2 | m2
      · rcases h3 : env.op 3 with ls3 | m3
        · rcases h4 : env.op 4 with ls4 | m4
          · rcases h5 : env.op 5 with ls5 | m5
            · simp only [execCmd, writeFile, h0, h1, h2, h3, h4, h5]
              rw [approveStep_trace, List.all_append, Bool.and_eq_true]
              constructor
              · exact pollKrustlet_all env cp _ _
                  (by simp [isAnyApprove, pollArgv, eventNode])
                  (by simp [isAnyApprove]) 31 _
                  (by simp [isAnyApprove, eventNode])
              · simp [isAnyApprove, approveArgv, eventNode]
            · simp [execCmd, writeFile, h0, h1, h2, h3, h4, h5, isAnyApprove, eventNode]
          · simp [execCmd, writeFile, h0, h1, h2, h3, h4, isAnyApprove, eventNode]
        · simp [execCmd, writeFile, h0, h1, h2, h3, isAnyApprove, eventNode]
      · simp [execCmd, writeFile, h0, h1, h2, isAnyApprove, eventNode]
    · simp [execCmd, writeFile, h0, h1, isAnyApprove, eventNode]
  · simp [execCmd, h0, isAnyApprove, eventNode]

lemma recipeOutcomes_approver :
    ∀ (envf : Nat → Env) (ws : List Node) (cp : Node),
      ∀ o ∈ recipeOutcomes runKrustletJoin envf ws cp,
        (o.trace.all (fun e => !(isAnyApprove e) || (eventNode e == cp.name))) = true := by
  intro envf ws
  induction ws generalizing envf with
  | nil => intro cp o ho; simp [recipeOutcomes] at ho
  | cons w ws ih =>
    intro cp o ho
    rw [recipeOutcomes] at ho
    rcases List.mem_cons.mp ho with h | h
    · rw [h]
      exact krustletJoin_approver _ _ _
    · exact ih (fun i => envf (i + 1)) cp o h

/-! ### Claim theorems -/

/-- C1 counterexample: with every poll attempt failing, the static-kubeconfig
recipe performs 11 poll attempts and the bootstrap-token recipe 31 — exceeding
the claimed ceilings of 10 and 30: the loops `for i := 0; i <= 10` and
`for i := 0; i <= 30` run 11 and 31 iterations. -/
theorem c1_poll_ceiling_counterexample :
    pollCount ("cp") ("w-tls") (runKubeadmJoin envExhaustKubeadm ("w") ("cp")).trace = 11 ∧
    ¬ (pollCount ("cp") ("w-tls") (runKubeadmJoin envExhaustKubeadm ("w") ("cp")).trace ≤ 10) ∧
    pollCount ("cp") ("w-tls") (runKrustletJoin envExhaustKrustlet ("w") ("cp")).trace = 31 ∧
    ¬ (pollCount ("cp") ("w-tls") (runKrustletJoin envExhaustKrustlet ("w") ("cp")).trace ≤ 30) := by
  refine ⟨rfl, by decide, rfl, by decide⟩

/-- C1 (amended): for every run of a worker's recipe, the CSR poll loop
performs at most 11 attempts in the static-kubeconfig variant and at most 31
in the bootstrap-token variant, and every sleep between attempts lasts
exactly 1 second, before the recipe proceeds to the approval step. -/
theorem c1_poll_ceiling_amended (env : Env) (node cp : String) :
    (pollCount cp (node ++ ("-tls")) (runKubeadmJoin env node cp).trace ≤ 11 ∧
      sleepsOneSecond (runKubeadmJoin env node cp).trace = true) ∧
    (pollCount cp (node ++ ("-tls")) (runKrustletJoin env node cp).trace ≤ 31 ∧
      sleepsOneSecond (runKrustletJoin env node cp).trace = true) :=
  ⟨⟨kubeadmJoin_poll_ceiling env node cp, kubeadmJoin_sleeps env node cp⟩,
   ⟨krustletJoin_poll_ceiling env node cp, krustletJoin_sleeps env node cp⟩⟩

/-- C2: whenever a worker's recipe reaches the poll step (every operation
before the poll — credential steps, service enable, service start —
succeeded), the approval command for CSR `<node>-tls` is issued exactly once
on the control-plane node, whatever the poll outcomes, in both variants. -/
theorem c2_approve_exactly_once (env : Env) (node cp : String) :
    ((∀ j, j < 6 → (env.op j).isOk = true) →
      approveCount cp (node ++ ("-tls")) (runKrustletJoin env node cp).trace = 1) ∧
    ((∀ j, j < 3 → (env.op j).isOk = true) →
      approveCount cp (node ++ ("-tls")) (runKubeadmJoin env node cp).trace = 1) :=
  ⟨krustletJoin_approve_once env node cp, kubeadmJoin_approve_once env node cp⟩

/-- C2 witness: in the environments where every poll attempt fails (the
retry budget is exhausted), the approval command is still issued exactly
once, in both variants. -/
theorem c2_approve_exactly_once_witness :
    approveCount ("cp") ("w-tls") (runKrustletJoin envExhaustKrustlet ("w") ("cp")).trace = 1 ∧
    approveCount ("cp") ("w-tls") (runKubeadmJoin envExhaustKubeadm ("w") ("cp")).trace = 1 :=
  ⟨(c2_approve_exactly_once envExhaustKrustlet ("w") ("cp")).1
      (fun j hj => by simp only [envExhaustKrustlet]; rw [if_neg (by omega)]; rfl),
   (c2_approve_exactly_once envExhaustKubeadm ("w") ("cp")).2
      (fun j hj => by simp only [envExhaustKubeadm]; rw [if_neg (by omega)]; rfl)⟩

/-- C3: in every worker's poll loop, if the CSR-existence check succeeds on
attempt k (all earlier attempts failing), exactly k poll attempts appear in
the trace — no attempts k+1 up to the ceiling are made — in both variants. -/
theorem c3_poll_stops_on_success :
    (∀ (env : Env) (node cp : String) (k : Nat), 1 ≤ k → k ≤ 31 →
      (∀ j, j < 6 → (env.op j).isOk = true) →
      (∀ j, j + 1 < k → (env.op (6 + j)).isOk = false) →
      (env.op (6 + (k - 1))).isOk = true →
      pollCount cp (node ++ ("-tls")) (runKrustletJoin env node cp).trace = k) ∧
    (∀ (env : Env) (node cp : String) (k : Nat), 1 ≤ k → k ≤ 11 →
      (∀ j, j < 3 → (env.op j).isOk = true) →
      (∀ j, j + 1 < k → (env.op (3 + j)).isOk = false) →
      (env.op (3 + (k - 1))).isOk = true →
      pollCount cp (node ++ ("-tls")) (runKubeadmJoin env node cp).trace = k) := by
  constructor
  · intro env node cp k hk1 hkc hpre hfail hsucc
    obtain ⟨ls0, h0⟩ := exists_ok_of_isOk (hpre 0 (by omega))
    obtain ⟨ls1, h1⟩ := exists_ok_of_isOk (hpre 1 (by omega))
    obtain ⟨ls2, h2⟩ := exists_ok_of_isOk (hpre 2 (by omega))
    obtain ⟨ls3, h3⟩ := exists_ok_of_isOk (hpre 3 (by omega))
    obtain ⟨ls4, h4⟩ := exists_ok_of_isOk (hpre 4 (by omega))
    obtain ⟨ls5, h5⟩ := exists_ok_of_isOk (hpre 5 (by omega))
    unfold runKrustletJoin pollCount
    simp only [execCmd, writeFile, h0, h1, h2, h3, h4, h5]
    rw [approveStep_trace, List.countP_append]
    have happ : List.countP (isPollCmd cp (node ++ ("-tls")))
        [Event.run cp (approveArgv (node ++ ("-tls")))] = 0 := by
      simp [isPollCmd, pollArgv, approveArgv]
    rw [happ, Nat.add_zero]
    rw [pollKrustlet_success env cp (node ++ ("-tls")) 31 k 6 hk1 hkc hfail hsucc]
    · simp [isPollCmd, pollArgv, List.countP_cons]
    · rfl
  · intro env node cp k hk1 hkc hpre hfail hsucc
    obtain ⟨ls0, h0⟩ := exists_ok_of_isOk (hpre 0 (by omega))
    obtain ⟨ls1, h1⟩ := exists_ok_of_isOk (hpre 1 (by omega))
    obtain ⟨ls2, h2⟩ := exists_ok_of_isOk (hpre 2 (by omega))
    unfold runKubeadmJoin pollCount
    simp only [execCmd, writeFile, h0, h1, h2]
    rw [approveStep_trace, List.countP_append]
    have happ : List.countP (isPollCmd cp (node ++ ("-tls")))
        [Event.run cp (approveArgv (node ++ ("-tls")))] = 0 := by
      simp [isPollCmd, pollArgv, approveArgv]
    rw [happ, Nat.add_zero]
    rw [pollKubeadm_success env cp (node ++ ("-tls")) 11 k 3 hk1 hkc hfail hsucc]
    · simp [isPollCmd, pollArgv, List.countP_cons]
    · rfl

/-- C3 witness: in the environments where the first poll attempt fails and
the second succeeds, exactly 2 poll attempts appear, in both variants. -/
theorem c3_poll_stops_on_success_witness :
    pollCount ("cp") ("w-tls") (runKrustletJoin envSecondTryKrustlet ("w") ("cp")).trace = 2 ∧
    pollCount ("cp") ("w-tls") (runKubeadmJoin envSecondTryKubeadm ("w") ("cp")).trace = 2 :=
  ⟨c3_poll_stops_on_success.1 envSecondTryKrustlet ("w") ("cp") 2 (by omega) (by omega)
      (fun j hj => by simp only [envSecondTryKrustlet]; rw [if_neg (by omega)]; rfl)
      (fun j hj => by have hj0 : j = 0 := (by omega); subst hj0; rfl) rfl,
   c3_poll_stops_on_success.2 envSecondTryKubeadm ("w") ("cp") 2 (by omega) (by omega)
      (fun j hj => by simp only [envSecondTryKubeadm]; rw [if_neg (by omega)]; rfl)
      (fun j hj => by have hj0 : j = 0 := (by omega); subst hj0; rfl) rfl⟩

/-- C4: if `systemctl start krustlet` fails (all earlier steps having
succeeded), the recipe returns the error wrapped as "failed to run
`systemctl start krustlet`", and no CSR poll command and no approval command
are issued — in both variants. -/
theorem c4_start_failure_aborts (env : Env) (node cp : String) (m : String) :
    ((∀ j, j < 5 → (env.op j).isOk = true) → env.op 5 = OpOutcome.fail m →
      (runKrustletJoin env node cp).result
          = Except.error (wrap ("failed to run `systemctl start krustlet`") m) ∧
      pollCount cp (node ++ ("-tls")) (runKrustletJoin env node cp).trace = 0 ∧
      approveCount cp (node ++ ("-tls")) (runKrustletJoin env node cp).trace = 0) ∧
    ((∀ j, j < 2 → (env.op j).isOk = true) → env.op 2 = OpOutcome.fail m →
      (runKubeadmJoin env node cp).result
          = Except.error (wrap ("failed to run `systemctl start krustlet`") m) ∧
      pollCount cp (node ++ ("-tls")) (runKubeadmJoin env node cp).trace = 0 ∧
      approveCount cp (node ++ ("-tls")) (runKubeadmJoin env node cp).trace = 0) := by
  constructor
  · intro hpre hf
    obtain ⟨ls0, h0⟩ := exists_ok_of_isOk (hpre 0 (by omega))
    obtain ⟨ls1, h1⟩ := exists_ok_of_isOk (hpre 1 (by omega))
    obtain ⟨ls2, h2⟩ := exists_ok_of_isOk (hpre 2 (by omega))
    obtain ⟨ls3, h3⟩ := exists_ok_of_isOk (hpre 3 (by omega))
    obtain ⟨ls4, h4⟩ := exists_ok_of_isOk (hpre 4 (by omega))
    unfold runKrustletJoin pollCount approveCount
    simp only [execCmd, writeFile, h0, h1, h2, h3, h4, hf]
    simp [isPollCmd, isApproveCmd, pollArgv, approveArgv, List.countP_cons]
  · intro hpre hf
    obtain ⟨ls0, h0⟩ := exists_ok_of_isOk (hpre 0 (by omega))
    obtain ⟨ls1, h1⟩ := exists_ok_of_isOk (hpre 1 (by omega))
    unfold runKubeadmJoin pollCount approveCount
    simp only [execCmd, writeFile, h0, h1, hf]
    simp [isPollCmd, isApproveCmd, pollArgv, approveArgv, List.countP_cons]

/-- C4 witness: in the environments where exactly the `systemctl start
krustlet` operation fails, both variants return the start-step error with no
poll and no approval issued. -/
theorem c4_start_failure_aborts_witness :
    (runKrustletJoin envStartFailKrustlet ("w") ("cp")).result
        = Except.error (wrap ("failed to run `systemctl start krustlet`") ("exit status 1")) ∧
    pollCount ("cp") ("w-tls") (runKrustletJoin envStartFailKrustlet ("w") ("cp")).trace = 0 ∧
    approveCount ("cp") ("w-tls") (runKrustletJoin envStartFailKrustlet ("w") ("cp")).trace = 0 ∧
    (runKubeadmJoin envStartFailKubeadm ("w") ("cp")).result
        = Except.error (wrap ("failed to run `systemctl start krustlet`") ("exit status 1")) ∧
    pollCount ("cp") ("w-tls") (runKubeadmJoin envStartFailKubeadm ("w") ("cp")).trace = 0 ∧
    approveCount ("cp") ("w-tls") (runKubeadmJoin envStartFailKubeadm ("w") ("cp")).trace = 0 := by
  obtain ⟨ha, hb, hc⟩ :=
    (c4_start_failure_aborts envStartFailKrustlet ("w") ("cp") ("exit status 1")).1
      (fun j hj => by simp only [envStartFailKrustlet]; rw [if_neg (by omega)]; rfl) rfl
  obtain ⟨hd, he, hf⟩ :=
    (c4_start_failure_aborts envStartFailKubeadm ("w") ("cp") ("exit status 1")).2
      (fun j hj => by simp only [envStartFailKubeadm]; rw [if_neg (by omega)]; rfl) rfl
  exact ⟨ha, hb, hc, hd, he, hf⟩

/-- C5: when the `kubectl certificate approve` step fails, both variants
wrap the error as "failed to run `systemctl start krustlet`" — the message of
the preceding step, copy-pasted — instead of a message describing the
approval step. Evaluated at environments where only the approval fails. -/
theorem c5_approve_wrap_misattributed :
    (runKrustletJoin envApproveFailKrustlet ("w") ("cp")).result
      = Except.error (wrap ("failed to run `systemctl start krustlet`") ("approve denied")) ∧
    (runKubeadmJoin envApproveFailKubeadm ("w") ("cp")).result
      = Except.error (wrap ("failed to run `systemctl start krustlet`") ("approve denied")) :=
  ⟨rfl, rfl⟩

/-- C6 counterexample: in the static-kubeconfig variant the error return of
`kubeconfig.Get` is discarded (`config, _ := ...`): with the provider failing
("connection refused") but every remote operation succeeding, the recipe does
not abort with "failed to write kubeconfig" — it runs to completion,
approves, and returns nil. -/
theorem c6_get_error_ignored_counterexample :
    envGetFail.kubeconfigErr = some ("connection refused") ∧
    (runKubeadmJoin envGetFail ("w") ("cp")).result = Except.ok () ∧
    approveCount ("cp") ("w-tls") (runKubeadmJoin envGetFail ("w") ("cp")).trace = 1 :=
  ⟨rfl, rfl, rfl⟩

/-- C6 (amended): in the static-kubeconfig variant, a failure to write the
kubeconfig to /etc/kubernetes/kubeconfig aborts the worker's recipe with an
error wrapped as "failed to write kubeconfig" and no subsequent step runs; a
failure to obtain the kubeconfig from the provider is ignored (its error is
discarded) and whatever string the provider returned is written anyway. -/
theorem c6_write_failure_aborts (env : Env) (node cp : String) (m : String)
    (h : env.op 0 = OpOutcome.fail m) :
    (runKubeadmJoin env node cp).result
        = Except.error (wrap ("failed to write kubeconfig") m) ∧
    (runKubeadmJoin env node cp).trace
        = [Event.write node ("/etc/kubernetes/kubeconfig") env.kubeconfigVal] := by
  unfold runKubeadmJoin
  simp [writeFile, h]

/-- C6 witness: with the first write failing ("device full"), the recipe
returns the wrapped write error and its trace holds only the write. -/
theorem c6_write_failure_aborts_witness :
    (runKubeadmJoin envWriteFail ("w") ("cp")).result
        = Except.error (wrap ("failed to write kubeconfig") ("device full")) ∧
    (runKubeadmJoin envWriteFail ("w") ("cp")).trace
        = [Event.write ("w") ("/etc/kubernetes/kubeconfig") envWriteFail.kubeconfigVal] :=
  c6_write_failure_aborts envWriteFail ("w") ("cp") ("device full") rfl

/-- C7: in the bootstrap-token variant, a failure of any of the four
credential steps (script download, script execution, reading back
bootstrap.conf, writing it to the worker) aborts the recipe with the wrap
message specific to the failing step, and no later step of the recipe runs
(the trace ends at the failing operation). -/
theorem c7_credential_step_failure_aborts (env : Env) (node cp : String) (i : Nat)
    (m : String) (hi : i < 4) (hpre : ∀ j, j < i → (env.op j).isOk = true)
    (hf : env.op i = OpOutcome.fail m) :
    (runKrustletJoin env node cp).result = Except.error (wrap (credentialStepMsg i) m) ∧
    (runKrustletJoin env node cp).trace.length = i + 1 := by
  interval_cases i
  · unfold runKrustletJoin
    simp [execCmd, hf, credentialStepMsg]
  · obtain ⟨ls0, h0⟩ := exists_ok_of_isOk (hpre 0 (by omega))
    unfold runKrustletJoin
    simp [execCmd, h0, hf, credentialStepMsg]
  · obtain ⟨ls0, h0⟩ := exists_ok_of_isOk (hpre 0 (by omega))
    obtain ⟨ls1, h1⟩ := exists_ok_of_isOk (hpre 1 (by omega))
    unfold runKrustletJoin
    simp [execCmd, h0, h1, hf, credentialStepMsg]
  · obtain ⟨ls0, h0⟩ := exists_ok_of_isOk (hpre 0 (by omega))
    obtain ⟨ls1, h1⟩ := exists_ok_of_isOk (hpre 1 (by omega))
    obtain ⟨ls2, h2⟩ := exists_ok_of_isOk (hpre 2 (by omega))
    unfold runKrustletJoin
    simp [execCmd, writeFile, h0, h1, h2, hf, credentialStepMsg]

/-- C7 witness: with the bootstrap.conf read (step index 2) failing, the
recipe returns the "failed to fetch bootstrap.conf" wrap and the trace has
exactly 3 operations. -/
theorem c7_credential_step_failure_aborts_witness :
    (runKrustletJoin envCatFail ("w") ("cp")).result
        = Except.error (wrap (credentialStepMsg 2) ("no such file")) ∧
    (runKrustletJoin envCatFail ("w") ("cp")).trace.length = 3 :=
  c7_credential_step_failure_aborts envCatFail ("w") ("cp") 2 ("no such file")
    (by omega) (fun j hj => by interval_cases j <;> rfl) rfl

/-- C8 counterexample: with a node set holding a krustlet worker but no
control-plane node, every remote operation trivially succeeds (none is ever
issued) yet Execute does not return success — it panics indexing
`cpNodes[0]`. -/
theorem c8_all_success_counterexample :
    executeAction runKrustletJoin [⟨"w", "krustlet"⟩] (fun _ => envAllOk)
      = ExecResult.panic ("runtime error: index out of range [0] with length 0") ∧
    executeAction runKrustletJoin [⟨"w", "krustlet"⟩] (fun _ => envAllOk) ≠ ExecResult.ok :=
  ⟨rfl, by decide⟩

/-- C8 (amended): provided a control-plane node exists whenever a
krustlet-role worker exists, if every remote operation in every worker's
recipe succeeds, Execute returns success (nil). -/
theorem c8_all_success_returns_ok (allNodes : List Node) (envf : Nat → Env)
    (hcp : selectNodesByRole allNodes krustletNodeRoleValue ≠ [] →
      selectNodesByRole allNodes controlPlaneNodeRoleValue ≠ [])
    (hall : ∀ i n, ((envf i).op n).isOk = true) :
    executeAction runKrustletJoin allNodes envf = ExecResult.ok := by
  by_cases hw : selectNodesByRole allNodes krustletNodeRoleValue = []
  · simp [executeAction, hw]
  · rcases hcpn : selectNodesByRole allNodes controlPlaneNodeRoleValue with _ | ⟨c, cs⟩
    · exact absurd hcpn (hcp hw)
    · have hlen : 0 < (selectNodesByRole allNodes krustletNodeRoleValue).length :=
        List.length_pos.mpr hw
      have hok : untilErrorConcurrent
          ((recipeOutcomes runKrustletJoin envf
            (selectNodesByRole allNodes krustletNodeRoleValue) c).map Outcome.result)
          = Except.ok () := by
        apply untilErrorConcurrent_ok
        intro r hr
        rcases List.mem_map.mp hr with ⟨o, ho, hro⟩
        rw [← hro]
        exact recipeOutcomes_result_ok envf _ c hall o ho
      simp [executeAction, hcpn, hlen, hok]

/-- C8 witness: a worker plus a control-plane node, all operations
succeeding, gives ExecResult.ok. -/
theorem c8_all_success_returns_ok_witness :
    executeAction runKrustletJoin [⟨"w", "krustlet"⟩, ⟨"c", "control-plane"⟩]
      (fun _ => envAllOk) = ExecResult.ok :=
  c8_all_success_returns_ok _ _ (by decide) (fun i n => rfl)

/-- C9: for every non-empty krustlet worker selection (with a control-plane
selection headed by cp), the action builds exactly one per-worker recipe per
worker-role node, and every approval command in every recipe's trace is
issued on that first control-plane node. -/
theorem c9_one_recipe_per_worker (allNodes : List Node) (envf : Nat → Env)
    (cp : Node) (cps : List Node)
    (hw : selectNodesByRole allNodes krustletNodeRoleValue ≠ [])
    (hcp : selectNodesByRole allNodes controlPlaneNodeRoleValue = cp :: cps) :
    (recipeOutcomes runKrustletJoin envf
        (selectNodesByRole allNodes krustletNodeRoleValue) cp).length
      = (selectNodesByRole allNodes krustletNodeRoleValue).length ∧
    ∀ o ∈ recipeOutcomes runKrustletJoin envf
        (selectNodesByRole allNodes krustletNodeRoleValue) cp,
      (o.trace.all (fun e => !(isAnyApprove e) || (eventNode e == cp.name))) = true :=
  ⟨recipeOutcomes_length _ _ _ _, fun o ho => recipeOutcomes_approver _ _ _ o ho⟩

/-- C9 witness: one worker and one control-plane node. -/
theorem c9_one_recipe_per_worker_witness :
    (recipeOutcomes runKrustletJoin (fun _ => envAllOk)
        (selectNodesByRole [⟨"w", "krustlet"⟩, ⟨"c", "control-plane"⟩]
          krustletNodeRoleValue) ⟨"c", "control-plane"⟩).length
      = (selectNodesByRole [⟨"w", "krustlet"⟩, ⟨"c", "control-plane"⟩]
          krustletNodeRoleValue).length ∧
    ∀ o ∈ recipeOutcomes runKrustletJoin (fun _ => envAllOk)
        (selectNodesByRole [⟨"w", "krustlet"⟩, ⟨"c", "control-plane"⟩]
          krustletNodeRoleValue) ⟨"c", "control-plane"⟩,
      (o.trace.all (fun e => !(isAnyApprove e)
        || (eventNode e == (⟨"c", "control-plane"⟩ : Node).name))) = true :=
  c9_one_recipe_per_worker [⟨"w", "krustlet"⟩, ⟨"c", "control-plane"⟩]
    (fun _ => envAllOk) ⟨"c", "control-plane"⟩ [] (by decide) (by decide)

/-- C10: when the node set holds at least one krustlet-role worker but the
control-plane selection is empty, Execute panics indexing `cpNodes[0]` (in
both variants) — the out-of-bounds access is a panic, not a returned error,
so safe completion needs a control-plane node whenever a worker exists. -/
theorem c10_no_control_plane_panics (allNodes : List Node) (envf : Nat → Env)
    (hw : selectNodesByRole allNodes krustletNodeRoleValue ≠ [])
    (hcp : selectNodesByRole allNodes controlPlaneNodeRoleValue = []) :
    executeAction runKrustletJoin allNodes envf
        = ExecResult.panic ("runtime error: index out of range [0] with length 0") ∧
    executeAction runKubeadmJoin allNodes envf
        = ExecResult.panic ("runtime error: index out of range [0] with length 0") := by
  have hlen : 0 < (selectNodesByRole allNodes krustletNodeRoleValue).length :=
    List.length_pos.mpr hw
  constructor <;> simp [executeAction, hcp, hlen]

/-- C10 witness: a single krustlet worker and no control-plane node. -/
theorem c10_no_control_plane_panics_witness :
    executeAction runKrustletJoin [⟨"w", "krustlet"⟩] (fun _ => envAllOk)
        = ExecResult.panic ("runtime error: index out of range [0] with length 0") ∧
    executeAction runKubeadmJoin [⟨"w", "krustlet"⟩] (fun _ => envAllOk)
        = ExecResult.panic ("runtime error: index out of range [0] with length 0") :=
  c10_no_control_plane_panics [⟨"w", "krustlet"⟩] (fun _ => envAllOk)
    (by decide) (by decide)

end Krustlet
